import Mathlib

/-!
Shallow embedding of the scroll-driven 3D animation module (the scroll
timeline of `main.js`): the interpolation helpers, the four timeline
entries, the scheduler `playScrollAnimation` with its first-match scan and
terminal idle spin, the scroll/resize event handlers and the `cleanup`
teardown.

Numbers are modelled over an arbitrary linear ordered field `K`; the
JavaScript constant `Math.PI` becomes an explicit parameter `pi : K`,
since no verified property depends on its numeric value (witnesses
instantiate `K` with the rationals).  The JavaScript literal `0.01` is
the exact field value `1/100`.  The module-global `scrollPercent` read by
`scalePercent` and `playScrollAnimation` is passed explicitly.
-/

namespace ScrollAnim

/-- A 3-component vector, as used for positions and Euler rotations. -/
structure Vec3 (K : Type) where
  x : K
  y : K
  z : K
deriving DecidableEq, Repr

/-- The mutable scene transforms the timeline touches: positions and
rotations of the box and torus, the camera position, and the argument of
the last `camera.lookAt` call, standing in for the camera orientation. -/
structure SceneState (K : Type) where
  boxPosition : Vec3 K
  boxRotation : Vec3 K
  torusPosition : Vec3 K
  torusRotation : Vec3 K
  cameraPosition : Vec3 K
  cameraLookTarget : Vec3 K
deriving DecidableEq, Repr

/-- A scroll range of the timeline, `{ start, end }` in the source. -/
structure AnimRange (K : Type) where
  start : K
  «end» : K
deriving DecidableEq, Repr

/-- The four named ranges of the `ANIMATION_RANGES` constant. -/
structure AnimRanges (K : Type) where
  INTRO : AnimRange K
  ROTATION : AnimRange K
  CAMERA_MOVE : AnimRange K
  FINAL_SPIN : AnimRange K
deriving DecidableEq, Repr

variable {K : Type} [LinearOrderedField K]

/-- Constant `BOX_INITIAL_POSITION = { x: 0, y: 0.5, z: -15 }`. -/
def BOX_INITIAL_POSITION : Vec3 K := ⟨0, 1/2, -15⟩

/-- Constant `BOX_INITIAL_ROTATION = { x: 1, y: 1, z: 0 }`. -/
def BOX_INITIAL_ROTATION : Vec3 K := ⟨1, 1, 0⟩

/-- Constant `TORUS_INITIAL_POSITION = { x: 0, y: 1, z: 10 }`. -/
def TORUS_INITIAL_POSITION : Vec3 K := ⟨0, 1, 10⟩

/-- Constant `CAMERA_DEFAULT_POSITION = { x: 0, y: 1, z: 10 }`. -/
def CAMERA_DEFAULT_POSITION : Vec3 K := ⟨0, 1, 10⟩

/-- Constant `ANIMATION_RANGES`: INTRO `[0,40]`, ROTATION `[40,60]`,
CAMERA_MOVE `[60,80]`, FINAL_SPIN `[80,100]`. -/
def ANIMATION_RANGES : AnimRanges K :=
  ⟨⟨0, 40⟩, ⟨40, 60⟩, ⟨60, 80⟩, ⟨80, 100⟩⟩

/-- Function `lerp(start, end, alpha)`: returns
`(1 - alpha) * start + alpha * end`. -/
def lerp (start «end» alpha : K) : K :=
  (1 - alpha) * start + alpha * «end»

/-- Function `scalePercent(start, end)`: returns
`(scrollPercent - start) / (end - start)`.  The module-global
`scrollPercent` is the explicit first argument here; division is field
division (see `scalePercentJS` for the zero-divisor behaviour of the
JavaScript operator). -/
def scalePercent (scrollPercent start «end» : K) : K :=
  (scrollPercent - start) / («end» - start)

/-- JavaScript division restricted to finite operands: a zero divisor
produces a non-finite result (`NaN` when the dividend is also zero,
`±Infinity` otherwise), collapsed here into `none`; otherwise the finite
quotient. -/
def jsDiv (a b : K) : Option K :=
  if b = 0 then none else some (a / b)

/-- The body of `scalePercent` under JavaScript division semantics:
`none` marks the non-finite value produced when `end - start` is zero. -/
def scalePercentJS (scrollPercent start «end» : K) : Option K :=
  jsDiv (scrollPercent - start) («end» - start)

/-- Function `setCameraToDefault()`: `camera.lookAt(box.position)` then
`camera.position.set(CAMERA_DEFAULT_POSITION ...)`. -/
def setCameraToDefault (s : SceneState K) : SceneState K :=
  { s with
    cameraLookTarget := s.boxPosition
    cameraPosition := CAMERA_DEFAULT_POSITION }

/-- One element of the `animationScripts` array:
`{ start, end, function() {...} }`.  The `function` field (called `apply`
as in the design documentation) takes the current `scrollPercent` and the
scene state it mutates. -/
structure TimelineEntry (K : Type) where
  start : K
  «end» : K
  apply : K → SceneState K → SceneState K

/-- The first pushed entry (Intro, range `ANIMATION_RANGES.INTRO`):
camera reset, box `position.z` from `-15` to `2`, torus `position.z`
from `10` to `-20`. -/
def introEntry : TimelineEntry K where
  start := (ANIMATION_RANGES : AnimRanges K).INTRO.start
  «end» := (ANIMATION_RANGES : AnimRanges K).INTRO.«end»
  apply := fun scrollPercent s =>
    let pct := scalePercent scrollPercent
      (ANIMATION_RANGES : AnimRanges K).INTRO.start
      (ANIMATION_RANGES : AnimRanges K).INTRO.«end»
    let s := setCameraToDefault s
    let s := { s with boxPosition.z := lerp (-15) 2 pct }
    { s with torusPosition.z := lerp 10 (-20) pct }

/-- The second pushed entry (Rotation, range `ANIMATION_RANGES.ROTATION`):
camera reset, box `rotation.z` from `1` to `Math.PI`. -/
def rotationEntry (pi : K) : TimelineEntry K where
  start := (ANIMATION_RANGES : AnimRanges K).ROTATION.start
  «end» := (ANIMATION_RANGES : AnimRanges K).ROTATION.«end»
  apply := fun scrollPercent s =>
    let pct := scalePercent scrollPercent
      (ANIMATION_RANGES : AnimRanges K).ROTATION.start
      (ANIMATION_RANGES : AnimRanges K).ROTATION.«end»
    let s := setCameraToDefault s
    { s with boxRotation.z := lerp 1 pi pct }

/-- The third pushed entry (CameraMove, range
`ANIMATION_RANGES.CAMERA_MOVE`): `camera.lookAt(box.position)` and camera
position interpolated componentwise from `(0, 1, 10)` to
`(-15, -15, 25)`. -/
def cameraMoveEntry : TimelineEntry K where
  start := (ANIMATION_RANGES : AnimRanges K).CAMERA_MOVE.start
  «end» := (ANIMATION_RANGES : AnimRanges K).CAMERA_MOVE.«end»
  apply := fun scrollPercent s =>
    let pct := scalePercent scrollPercent
      (ANIMATION_RANGES : AnimRanges K).CAMERA_MOVE.start
      (ANIMATION_RANGES : AnimRanges K).CAMERA_MOVE.«end»
    let s := { s with cameraLookTarget := s.boxPosition }
    let s := { s with cameraPosition.x := lerp 0 (-15) pct }
    let s := { s with cameraPosition.y := lerp 1 (-15) pct }
    { s with cameraPosition.z := lerp 10 25 pct }

/-- The fourth pushed entry (FinalSpin, range
`ANIMATION_RANGES.FINAL_SPIN`): box `rotation.x` and `rotation.y` each
set to `lerp(BOX_INITIAL_ROTATION.{x,y}, Math.PI * 4, progress)` where
`progress` normalises `scrollPercent` over the range. -/
def finalSpinEntry (pi : K) : TimelineEntry K where
  start := (ANIMATION_RANGES : AnimRanges K).FINAL_SPIN.start
  «end» := (ANIMATION_RANGES : AnimRanges K).FINAL_SPIN.«end»
  apply := fun scrollPercent s =>
    let progress := scalePercent scrollPercent
      (ANIMATION_RANGES : AnimRanges K).FINAL_SPIN.start
      (ANIMATION_RANGES : AnimRanges K).FINAL_SPIN.«end»
    let rx := lerp (BOX_INITIAL_ROTATION : Vec3 K).x (pi * 4) progress
    let ry := lerp (BOX_INITIAL_ROTATION : Vec3 K).y (pi * 4) progress
    { s with boxRotation.x := rx, boxRotation.y := ry }

/-- The `animationScripts` array, in push order. -/
def animationScripts (pi : K) : List (TimelineEntry K) :=
  [introEntry, rotationEntry pi, cameraMoveEntry, finalSpinEntry pi]

/-- The `for ... of` loop of `playScrollAnimation`: run the `function` of
the first entry whose closed range `[start, end]` contains
`scrollPercent`, then `break`. -/
def runTimeline (scrollPercent : K) :
    List (TimelineEntry K) → SceneState K → SceneState K
  | [], s => s
  | e :: rest, s =>
    if scrollPercent ≥ e.start ∧ scrollPercent ≤ e.«end» then
      e.apply scrollPercent s
    else
      runTimeline scrollPercent rest s

/-- Index of the entry the `for ... of` loop fires, if any (`break`
means at most the first in-range entry runs). -/
def firedIndex (scrollPercent : K) : List (TimelineEntry K) → Option ℕ
  | [] => none
  | e :: rest =>
    if scrollPercent ≥ e.start ∧ scrollPercent ≤ e.«end» then some 0
    else (firedIndex scrollPercent rest).map (· + 1)

/-- Number of entry bodies the loop executes on a given tick. -/
def firedCount (scrollPercent : K) : List (TimelineEntry K) → ℕ
  | [] => 0
  | e :: rest =>
    if scrollPercent ≥ e.start ∧ scrollPercent ≤ e.«end» then 1
    else firedCount scrollPercent rest

/-- The terminal branch of `playScrollAnimation`:
`box.rotation.x += 0.01; box.rotation.y += 0.01`. -/
def idleSpin (s : SceneState K) : SceneState K :=
  { s with
    boxRotation.x := s.boxRotation.x + 1/100
    boxRotation.y := s.boxRotation.y + 1/100 }

/-- Function `playScrollAnimation()`: first-match scan of
`animationScripts`, then, when `scrollPercent >= 100`, the idle-spin
increment. -/
def playScrollAnimation (pi scrollPercent : K) (s : SceneState K) :
    SceneState K :=
  let s := runTimeline scrollPercent (animationScripts pi) s
  if scrollPercent ≥ 100 then idleSpin s else s

/-- The scene state right after module initialisation: objects at their
initial constants, followed by the startup `setCameraToDefault()` call
(three.js objects start with position and rotation zero). -/
def initialSceneState : SceneState K :=
  setCameraToDefault
    { boxPosition := BOX_INITIAL_POSITION
      boxRotation := BOX_INITIAL_ROTATION
      torusPosition := TORUS_INITIAL_POSITION
      torusRotation := ⟨0, 0, 0⟩
      cameraPosition := ⟨0, 0, 0⟩
      cameraLookTarget := ⟨0, 0, 0⟩ }

/-- The `sizes` record: viewport width and height. -/
structure Sizes (K : Type) where
  width : K
  height : K
deriving DecidableEq, Repr

/-- The document metrics the scroll handler reads
(`document.documentElement.scrollTop / scrollHeight / clientHeight`). -/
structure ScrollMetrics (K : Type) where
  scrollTop : K
  scrollHeight : K
  clientHeight : K
deriving DecidableEq, Repr

/-- The window metrics the resize handler reads
(`window.innerWidth / innerHeight / devicePixelRatio`). -/
structure WindowMetrics (K : Type) where
  innerWidth : K
  innerHeight : K
  devicePixelRatio : K
deriving DecidableEq, Repr

/-- The module-level mutable state outside the scene transforms: the
`scrollPercent` global, the `sizes` record, the camera projection and
renderer parameters touched on resize, the registration status of the two
`window` event listeners, and the disposal flags of the retained
rendering resources. -/
structure AppState (K : Type) where
  scrollPercent : K
  sizes : Sizes K
  cameraAspect : K
  rendererWidth : K
  rendererHeight : K
  rendererPixelRatio : K
  scrollListenerRegistered : Bool
  resizeListenerRegistered : Bool
  boxGeometryDisposed : Bool
  boxMaterialDisposed : Bool
  torusGeometryDisposed : Bool
  torusMaterialDisposed : Bool
  rendererDisposed : Bool
deriving DecidableEq, Repr

/-- The `handleScroll` listener body:
`scrollPercent = (scrollTop / (scrollHeight - clientHeight)) * 100`. -/
def handleScroll (m : ScrollMetrics K) (st : AppState K) : AppState K :=
  { st with scrollPercent :=
      m.scrollTop / (m.scrollHeight - m.clientHeight) * 100 }

/-- The `handleResize` listener body: update `sizes`, `camera.aspect`
(with `updateProjectionMatrix`), and the renderer size and pixel ratio. -/
def handleResize (w : WindowMetrics K) (st : AppState K) : AppState K :=
  { st with
    sizes := ⟨w.innerWidth, w.innerHeight⟩
    cameraAspect := w.innerWidth / w.innerHeight
    rendererWidth := w.innerWidth
    rendererHeight := w.innerHeight
    rendererPixelRatio := w.devicePixelRatio }

/-- Delivery of a `scroll` event by the browser: the handler body runs
only while `addEventListener`'s registration is still in place. -/
def dispatchScroll (m : ScrollMetrics K) (st : AppState K) : AppState K :=
  if st.scrollListenerRegistered then handleScroll m st else st

/-- Delivery of a `resize` event by the browser: the handler body runs
only while `addEventListener`'s registration is still in place. -/
def dispatchResize (w : WindowMetrics K) (st : AppState K) : AppState K :=
  if st.resizeListenerRegistered then handleResize w st else st

/-- The exported `cleanup()`: `removeEventListener` for both listeners,
then `dispose()` of the two geometries, the two materials and the
renderer. -/
def cleanup (st : AppState K) : AppState K :=
  { st with
    scrollListenerRegistered := false
    resizeListenerRegistered := false
    boxGeometryDisposed := true
    boxMaterialDisposed := true
    torusGeometryDisposed := true
    torusMaterialDisposed := true
    rendererDisposed := true }

/-- Helper: the first-match loop runs at most one entry body, whatever
the entry list. -/
theorem firedCount_le_one (p : K) (es : List (TimelineEntry K)) :
    firedCount p es ≤ 1 := by
  induction es with
  | nil => simp [firedCount]
  | cons e rest ih =>
      by_cases h : p ≥ e.start ∧ p ≤ e.«end» <;> simp [firedCount, h, ih]

/-- C4: for all `a` and `b`, `lerp a b 0 = a`, `lerp a b 1 = b`, and
`lerp a b (1/2) = (a + b) / 2`. -/
theorem lerp_endpoint_values (a b : K) :
    lerp a b 0 = a ∧ lerp a b 1 = b ∧ lerp a b (1/2) = (a + b) / 2 := by
  refine ⟨?_, ?_, ?_⟩ <;> simp only [lerp] <;> ring

/-- C5: for range bounds `s ≠ e`, `scalePercent` is `0` when the current
progress equals `s` and `1` when it equals `e`. -/
theorem scalePercent_range_endpoints (s e : K) (h : s ≠ e) :
    scalePercent s s e = 0 ∧ scalePercent e s e = 1 := by
  have he : e - s ≠ 0 := sub_ne_zero.mpr (Ne.symm h)
  constructor
  · simp [scalePercent]
  · simp [scalePercent, div_self he]

/-- Witness for C5 at `s = 0`, `e = 40` over the rationals. -/
theorem scalePercent_range_endpoints_witness :
    ((0:ℚ) ≠ 40) ∧ scalePercent (0:ℚ) 0 40 = 0 ∧ scalePercent (40:ℚ) 0 40 = 1 :=
  ⟨by norm_num, (scalePercent_range_endpoints 0 40 (by norm_num)).1,
    (scalePercent_range_endpoints 0 40 (by norm_num)).2⟩

/-- C6: with equal range bounds `scalePercent` divides by zero and the
JavaScript division yields a non-finite value (modelled as `none`);
under the precondition `s ≠ e` the division is well-defined and equals
`(p - s) / (e - s)`, the value of the field-division model. -/
theorem scalePercent_zero_width (s e p : K) :
    scalePercentJS p s s = none
  ∧ (s ≠ e → scalePercentJS p s e = some ((p - s) / (e - s))
      ∧ scalePercentJS p s e = some (scalePercent p s e)) := by
  constructor
  · simp [scalePercentJS, jsDiv]
  · intro h
    have he : e - s ≠ 0 := sub_ne_zero.mpr (Ne.symm h)
    constructor <;> simp [scalePercentJS, jsDiv, he, scalePercent]

/-- Witness for C6 at concrete rational bounds. -/
theorem scalePercent_zero_width_witness :
    scalePercentJS (7:ℚ) 5 5 = none
  ∧ ((0:ℚ) ≠ 40)
  ∧ scalePercentJS (20:ℚ) 0 40 = some ((20 - 0) / (40 - 0)) :=
  ⟨(scalePercent_zero_width 5 5 7).1, by norm_num,
    ((scalePercent_zero_width 0 40 20).2 (by norm_num)).1⟩

/-- C1: the scheduler runs at most one entry body per tick; progress 40
lies in the closed ranges of both the Intro entry (index 0) and the
Rotation entry (index 1), the first match is the Intro entry, and the
tick at progress 40 is exactly the Intro entry's body. -/
theorem scheduler_first_match_at_40 (pi p : K) (es : List (TimelineEntry K))
    (s : SceneState K) :
    firedCount p es ≤ 1
  ∧ (animationScripts pi).get? 0 = some introEntry
  ∧ (animationScripts pi).get? 1 = some (rotationEntry pi)
  ∧ ((40:K) ≥ (introEntry : TimelineEntry K).start
      ∧ (40:K) ≤ (introEntry : TimelineEntry K).«end»)
  ∧ ((40:K) ≥ (rotationEntry pi).start ∧ (40:K) ≤ (rotationEntry pi).«end»)
  ∧ firedIndex (40:K) (animationScripts pi) = some 0
  ∧ playScrollAnimation pi 40 s = (introEntry : TimelineEntry K).apply 40 s := by
  refine ⟨firedCount_le_one p es, rfl, rfl, ?_, ?_, ?_, ?_⟩
  · constructor <;> norm_num [introEntry, ANIMATION_RANGES]
  · constructor <;> norm_num [rotationEntry, ANIMATION_RANGES]
  · norm_num [firedIndex, animationScripts, introEntry, ANIMATION_RANGES]
  · norm_num [playScrollAnimation, runTimeline, animationScripts, introEntry,
      ANIMATION_RANGES]

/-- C2: for every progress in `[80, 100]` the FinalSpin body sets box
rotation `x` and `y` to an interpolation from the fixed
`BOX_INITIAL_ROTATION` constant toward `4π`, independent of the current
rotation, and applying it twice at the same progress equals applying it
once. -/
theorem finalSpin_from_fixed_origin (pi p : K) (s : SceneState K)
    (_h1 : 80 ≤ p) (_h2 : p ≤ 100) :
    ((finalSpinEntry pi).apply p s).boxRotation.x
        = lerp (BOX_INITIAL_ROTATION : Vec3 K).x (pi * 4) (scalePercent p 80 100)
  ∧ ((finalSpinEntry pi).apply p s).boxRotation.y
        = lerp (BOX_INITIAL_ROTATION : Vec3 K).y (pi * 4) (scalePercent p 80 100)
  ∧ (∀ s' : SceneState K,
        ((finalSpinEntry pi).apply p s').boxRotation.x
          = ((finalSpinEntry pi).apply p s).boxRotation.x
      ∧ ((finalSpinEntry pi).apply p s').boxRotation.y
          = ((finalSpinEntry pi).apply p s).boxRotation.y)
  ∧ (finalSpinEntry pi).apply p ((finalSpinEntry pi).apply p s)
        = (finalSpinEntry pi).apply p s := by
  refine ⟨?_, ?_, ?_, ?_⟩
  · simp [finalSpinEntry, ANIMATION_RANGES]
  · simp [finalSpinEntry, ANIMATION_RANGES]
  · intro s'; constructor <;> simp [finalSpinEntry]
  · simp [finalSpinEntry]

/-- Witness for C2 at progress 90 over the rationals. -/
theorem finalSpin_from_fixed_origin_witness :
    ((80:ℚ) ≤ 90 ∧ (90:ℚ) ≤ 100)
  ∧ ((finalSpinEntry (22/7 : ℚ)).apply 90 initialSceneState).boxRotation.x
      = lerp (BOX_INITIAL_ROTATION : Vec3 ℚ).x ((22/7) * 4) (scalePercent 90 80 100) :=
  ⟨⟨by norm_num, by norm_num⟩,
    (finalSpin_from_fixed_origin (22/7 : ℚ) 90 initialSceneState
      (by norm_num) (by norm_num)).1⟩

/-- C3 (behaviour at the failing input): at progress 100 the FinalSpin
entry (index 3) fires and the idle-spin increment applies in the same
tick, yet the tick is a fixed point after one application: box rotation
`x` and `y` are `4π + 1/100` after every tick, so repeated ticks at
progress 100 do not strictly increase the rotation. -/
theorem tick_at_100_fixed_point (pi : K) (s : SceneState K) :
    firedIndex (100:K) (animationScripts pi) = some 3
  ∧ (playScrollAnimation pi 100 s).boxRotation.x = pi * 4 + 1/100
  ∧ (playScrollAnimation pi 100 s).boxRotation.y = pi * 4 + 1/100
  ∧ playScrollAnimation pi 100 (playScrollAnimation pi 100 s)
      = playScrollAnimation pi 100 s := by
  have hfire : firedIndex (100:K) (animationScripts pi) = some 3 := by
    norm_num [firedIndex, animationScripts, introEntry, rotationEntry,
      cameraMoveEntry, finalSpinEntry, ANIMATION_RANGES]
  have hplay : ∀ t : SceneState K,
      playScrollAnimation pi 100 t
        = idleSpin ((finalSpinEntry pi).apply 100 t) := by
    intro t
    norm_num [playScrollAnimation, runTimeline, animationScripts, introEntry,
      rotationEntry, cameraMoveEntry, finalSpinEntry, ANIMATION_RANGES]
  have hx : ∀ t : SceneState K,
      (idleSpin ((finalSpinEntry pi).apply 100 t)).boxRotation.x
        = pi * 4 + 1/100 := by
    intro t
    norm_num [idleSpin, finalSpinEntry, ANIMATION_RANGES, scalePercent, lerp,
      BOX_INITIAL_ROTATION]
  have hy : ∀ t : SceneState K,
      (idleSpin ((finalSpinEntry pi).apply 100 t)).boxRotation.y
        = pi * 4 + 1/100 := by
    intro t
    norm_num [idleSpin, finalSpinEntry, ANIMATION_RANGES, scalePercent, lerp,
      BOX_INITIAL_ROTATION]
  refine ⟨hfire, by rw [hplay s]; exact hx s, by rw [hplay s]; exact hy s, ?_⟩
  rw [hplay s, hplay (idleSpin ((finalSpinEntry pi).apply 100 s))]
  norm_num [idleSpin, finalSpinEntry, ANIMATION_RANGES, scalePercent, lerp,
    BOX_INITIAL_ROTATION]

/-- C7: the Intro body at progress 0 sets box `position.z` to `-15` and
torus `position.z` to `10`; at progress 40 it sets them to `2` and `-20`
respectively. -/
theorem intro_exact_endpoints (s : SceneState K) :
    ((introEntry : TimelineEntry K).apply 0 s).boxPosition.z = -15
  ∧ ((introEntry : TimelineEntry K).apply 0 s).torusPosition.z = 10
  ∧ ((introEntry : TimelineEntry K).apply 40 s).boxPosition.z = 2
  ∧ ((introEntry : TimelineEntry K).apply 40 s).torusPosition.z = -20 := by
  refine ⟨?_, ?_, ?_, ?_⟩ <;>
    norm_num [introEntry, ANIMATION_RANGES, scalePercent, lerp,
      setCameraToDefault]

/-- C8 counterexample: progress 101 is outside `[0, 100]`, yet the tick
changes the box rotation (the idle spin fires), so the scene transforms
do not all stay as they were. -/
theorem tick_above_100_mutates :
    (101:ℚ) > 100
  ∧ (playScrollAnimation (0:ℚ) 101 initialSceneState).boxRotation.x
      ≠ initialSceneState.boxRotation.x := by
  have hi : ¬ ((101:ℚ) ≥ 0 ∧ (101:ℚ) ≤ 40) := by norm_num
  have hr : ¬ ((101:ℚ) ≥ 40 ∧ (101:ℚ) ≤ 60) := by norm_num
  have hc : ¬ ((101:ℚ) ≥ 60 ∧ (101:ℚ) ≤ 80) := by norm_num
  have hf : ¬ ((101:ℚ) ≥ 80 ∧ (101:ℚ) ≤ 100) := by norm_num
  constructor
  · norm_num
  · norm_num [playScrollAnimation, runTimeline, animationScripts, introEntry,
      rotationEntry, cameraMoveEntry, finalSpinEntry, ANIMATION_RANGES,
      idleSpin, initialSceneState, setCameraToDefault, BOX_INITIAL_ROTATION,
      hi, hr, hc, hf]

/-- C8 amended: outside `[0, 100]` no timeline entry fires; for negative
progress the tick leaves the scene state unchanged, while for progress
above 100 the tick changes exactly the idle-spin increment of box
rotation `x` and `y`. -/
theorem no_entry_fires_outside_range (pi p : K) (s : SceneState K)
    (h : p < 0 ∨ 100 < p) :
    firedIndex p (animationScripts pi) = none
  ∧ (p < 0 → playScrollAnimation pi p s = s)
  ∧ (100 < p → playScrollAnimation pi p s = idleSpin s) := by
  have hi : ¬ (p ≥ (0:K) ∧ p ≤ 40) := by
    rintro ⟨ha, hb⟩; obtain h | h := h <;> linarith
  have hr : ¬ (p ≥ (40:K) ∧ p ≤ 60) := by
    rintro ⟨ha, hb⟩; obtain h | h := h <;> linarith
  have hc : ¬ (p ≥ (60:K) ∧ p ≤ 80) := by
    rintro ⟨ha, hb⟩; obtain h | h := h <;> linarith
  have hf : ¬ (p ≥ (80:K) ∧ p ≤ 100) := by
    rintro ⟨ha, hb⟩; obtain h | h := h <;> linarith
  refine ⟨?_, ?_, ?_⟩
  · simp [firedIndex, animationScripts, introEntry, rotationEntry,
      cameraMoveEntry, finalSpinEntry, ANIMATION_RANGES, hi, hr, hc, hf]
  · intro hneg
    have hlt : ¬ (p ≥ (100:K)) := by simp only [ge_iff_le, not_le]; linarith
    simp [playScrollAnimation, runTimeline, animationScripts, introEntry,
      rotationEntry, cameraMoveEntry, finalSpinEntry, ANIMATION_RANGES,
      hi, hr, hc, hf, hlt]
  · intro hgt
    have hge : p ≥ (100:K) := le_of_lt hgt
    simp [playScrollAnimation, runTimeline, animationScripts, introEntry,
      rotationEntry, cameraMoveEntry, finalSpinEntry, ANIMATION_RANGES,
      hi, hr, hc, hf, hge]

/-- Witness for the amended C8 at progress `-5` over the rationals. -/
theorem no_entry_fires_outside_range_witness :
    ((-5:ℚ) < 0 ∨ 100 < (-5:ℚ))
  ∧ firedIndex (-5:ℚ) (animationScripts 0) = none
  ∧ playScrollAnimation (0:ℚ) (-5) initialSceneState = initialSceneState := by
  have h := no_entry_fires_outside_range (0:ℚ) (-5) initialSceneState
    (Or.inl (by norm_num))
  exact ⟨Or.inl (by norm_num), h.1, h.2.1 (by norm_num)⟩

/-- C9: after `cleanup`, delivering a scroll event or a resize event is a
no-op: `scrollPercent`, `sizes` and the camera projection state are not
mutated. -/
theorem cleanup_detaches_listeners (m : ScrollMetrics K) (w : WindowMetrics K)
    (st : AppState K) :
    dispatchScroll m (cleanup st) = cleanup st
  ∧ dispatchResize w (cleanup st) = cleanup st
  ∧ (dispatchScroll m (cleanup st)).scrollPercent = st.scrollPercent
  ∧ (dispatchResize w (cleanup st)).sizes = st.sizes
  ∧ (dispatchResize w (cleanup st)).cameraAspect = st.cameraAspect := by
  refine ⟨?_, ?_, ?_, ?_, ?_⟩ <;> simp [dispatchScroll, dispatchResize, cleanup]

/-- C10: a scheduler tick never changes box `position.x` or
`position.y`, torus `position.x` or `position.y`, or the torus rotation,
for any progress value. -/
theorem scheduler_untouched_fields (pi p : K) (s : SceneState K) :
    (playScrollAnimation pi p s).boxPosition.x = s.boxPosition.x
  ∧ (playScrollAnimation pi p s).boxPosition.y = s.boxPosition.y
  ∧ (playScrollAnimation pi p s).torusPosition.x = s.torusPosition.x
  ∧ (playScrollAnimation pi p s).torusPosition.y = s.torusPosition.y
  ∧ (playScrollAnimation pi p s).torusRotation = s.torusRotation := by
  simp only [playScrollAnimation, runTimeline, animationScripts, idleSpin]
  split_ifs <;>
    simp [introEntry, rotationEntry, cameraMoveEntry, finalSpinEntry,
      setCameraToDefault]

end ScrollAnim
